import Mathlib

set_option maxRecDepth 100000

/-!
Verification of the issue analysis and remote-session orchestration engine of
the `devin-github-issues-integration` repository (src/issue_scoper.py and
src/issue_resolver.py), against its natural-language specification.

The Python source is shallowly embedded: pure functions become Lean
functions on `String`/`List Char`, floats become `ℚ` (every constant in the
source is an exact decimal; a comment marks each spot where binary floating
point could in principle differ), JSON values become an inductive `JVal`,
and each network/clock side effect becomes an explicit oracle argument or a
scripted list of poll responses.
-/

/-! ## String helpers mirroring Python primitives -/

/-- Python whitespace characters for `str.strip` and the regex class `\s`
(ASCII range; the inputs handled by this program are ASCII apart from the
fixed emoji markers, which are not whitespace). -/
def pyWsChars : List Char := [' ', '\t', '\n', '\r', '\x0b', '\x0c']

def isPyWs (c : Char) : Bool := pyWsChars.contains c

/-- Character class `\w` of Python's `re` (ASCII range). -/
def isWordChar (c : Char) : Bool := c.isAlphanum || c = '_'

/-- Substring test, mirroring Python's `needle in hay` on `str`. -/
def containsSub (n : List Char) : List Char → Bool
  | [] => decide (n = [])
  | c :: t => n.isPrefixOf (c :: t) || containsSub n t

/-- Python's `needle in hay` for `String`s. -/
def strIn (needle hay : String) : Bool := containsSub needle.toList hay.toList

/-- Python's `str.strip()` (whitespace at both ends). -/
def pyStrip (cs : List Char) : List Char :=
  ((cs.dropWhile isPyWs).reverse.dropWhile isPyWs).reverse

/-- Python's `str.lstrip(chars)` for an explicit character set. -/
def pyLstripSet (set : List Char) (cs : List Char) : List Char :=
  cs.dropWhile (fun c => set.contains c)

/-- Value of a list of decimal digits. -/
def digitsVal (ds : List Char) : ℕ :=
  ds.foldl (fun a c => a * 10 + (c.toNat - '0'.toNat)) 0

/-! ## Exact rational stand-ins for Python float operations -/

/-- Floor of a rational, computed from its reduced fraction. -/
def ratFloor (q : ℚ) : ℤ := q.num.fdiv (q.den : ℤ)

/-- Round-half-to-even on a rational, mirroring Python's `round` on a real
value (Python rounds the nearest-double; on the exact multiples of 1/10
produced by this program the two notions agree). -/
def roundHalfEven (q : ℚ) : ℤ :=
  let f := ratFloor q
  let frac := q - (f : ℚ)
  if frac < 1/2 then f
  else if 1/2 < frac then f + 1
  else if f % 2 = 0 then f else f + 1

/-- Python's `round(x, 1)` in exact rational arithmetic. -/
def roundTenth (q : ℚ) : ℚ := (roundHalfEven (q * 10) : ℚ) / 10

/-! ## Data model (src/issue_scoper.py lines 16-45) -/

/-- Enum `IssueCategory` (issue_scoper.py lines 16-25). -/
inductive IssueCategory where
  | BUG | FEATURE | DOCUMENTATION | ENHANCEMENT | QUESTION
  | MAINTENANCE | SECURITY | PERFORMANCE | UNKNOWN
deriving DecidableEq

/-- The `.value` string of each `IssueCategory` member. -/
def IssueCategory.value : IssueCategory → String
  | .BUG => "bug" | .FEATURE => "feature" | .DOCUMENTATION => "documentation"
  | .ENHANCEMENT => "enhancement" | .QUESTION => "question"
  | .MAINTENANCE => "maintenance" | .SECURITY => "security"
  | .PERFORMANCE => "performance" | .UNKNOWN => "unknown"

/-- Python's `category.value.title()` as used by `format_analysis`. -/
def IssueCategory.titleValue : IssueCategory → String
  | .BUG => "Bug" | .FEATURE => "Feature" | .DOCUMENTATION => "Documentation"
  | .ENHANCEMENT => "Enhancement" | .QUESTION => "Question"
  | .MAINTENANCE => "Maintenance" | .SECURITY => "Security"
  | .PERFORMANCE => "Performance" | .UNKNOWN => "Unknown"

/-- Enum `ComplexityLevel` (issue_scoper.py lines 27-32); `.value` is 1-5. -/
inductive ComplexityLevel where
  | TRIVIAL | SIMPLE | MODERATE | COMPLEX | VERY_COMPLEX
deriving DecidableEq

def ComplexityLevel.value : ComplexityLevel → ℕ
  | .TRIVIAL => 1 | .SIMPLE => 2 | .MODERATE => 3 | .COMPLEX => 4 | .VERY_COMPLEX => 5

/-- Python's `complexity.name.lower()` as used by `_generate_reasoning`. -/
def ComplexityLevel.lowerName : ComplexityLevel → String
  | .TRIVIAL => "trivial" | .SIMPLE => "simple" | .MODERATE => "moderate"
  | .COMPLEX => "complex" | .VERY_COMPLEX => "very_complex"

/-- Python's `complexity.name.title()` as used by `format_analysis`. -/
def ComplexityLevel.titleName : ComplexityLevel → String
  | .TRIVIAL => "Trivial" | .SIMPLE => "Simple" | .MODERATE => "Moderate"
  | .COMPLEX => "Complex" | .VERY_COMPLEX => "Very_Complex"

/-- Dataclass `IssueAnalysis` (issue_scoper.py lines 34-45). Floats are
modelled as `ℚ`, ints as `ℤ`. -/
structure IssueAnalysis where
  issue_number : ℤ
  title : String
  category : IssueCategory
  complexity : ComplexityLevel
  confidence_score : ℚ
  estimated_effort_hours : ℤ
  key_factors : List String
  blockers : List String
  dependencies : List String
  reasoning : String
deriving DecidableEq

/-- An issue as consumed by the classifier: the fields of the GitHub issue
dict that `_perform_analysis` reads (`number`, `title`, `body or ''`,
label names, and the bodies of `comment_details`). -/
structure IssueRec where
  number : ℤ
  title : String
  body : String
  labels : List String
  comments : List String
deriving DecidableEq

/-! ## Heuristic classifier (issue_scoper.py lines 106-362) -/

/-- Label keyword table of `_categorize_issue` (lines 153-161), in the
source's dict insertion order. -/
def label_categories : List (String × IssueCategory) :=
  [("bug", .BUG), ("feature", .FEATURE), ("enhancement", .ENHANCEMENT),
   ("documentation", .DOCUMENTATION), ("question", .QUESTION),
   ("security", .SECURITY), ("performance", .PERFORMANCE)]

/-- The label loop of `_categorize_issue` (lines 163-167): for each label in
order, for each keyword in table order, return the first category whose
keyword is a substring of the lower-cased label. -/
def labelScan (labels : List String) : Option IssueCategory :=
  labels.findSome? fun label =>
    label_categories.findSome? fun kc =>
      if strIn kc.1 label.toLower then some kc.2 else none

/-- Method `IssueScoper._categorize_issue` (issue_scoper.py lines 149-184). -/
def categorize_issue (title body : String) (labels : List String) : IssueCategory :=
  let text := (title ++ " " ++ body).toLower
  match labelScan labels with
  | some c => c
  | none =>
    if ["bug", "error", "crash", "broken", "fail", "issue"].any (strIn · text) then .BUG
    else if ["feature", "add", "implement", "new"].any (strIn · text) then .FEATURE
    else if ["improve", "enhance", "better", "optimize"].any (strIn · text) then .ENHANCEMENT
    else if ["document", "readme", "docs", "guide"].any (strIn · text) then .DOCUMENTATION
    else if ["question", "how", "why", "what", "?"].any (strIn · text) then .QUESTION
    else if ["security", "vulnerability", "exploit"].any (strIn · text) then .SECURITY
    else if ["performance", "slow", "speed", "optimize"].any (strIn · text) then .PERFORMANCE
    else .UNKNOWN

/-- Complexity keyword list of `_assess_complexity` (lines 196-200). -/
def complex_keywords : List String :=
  ["architecture", "refactor", "breaking change", "api change",
   "database", "migration", "performance", "security",
   "integration", "compatibility", "cross-platform"]

/-- Major-change label list of `_assess_complexity` (line 206). -/
def complex_labels : List String := ["breaking-change", "architecture", "refactor", "major"]

/-- Threshold mapping at the end of `_assess_complexity` (lines 211-220). -/
def scoreToLevel (s : ℕ) : ComplexityLevel :=
  if s ≤ 1 then .TRIVIAL
  else if s ≤ 2 then .SIMPLE
  else if s ≤ 4 then .MODERATE
  else if s ≤ 6 then .COMPLEX
  else .VERY_COMPLEX

/-- Method `IssueScoper._assess_complexity` (issue_scoper.py lines 186-220),
with the sequential `complexity_score` updates written as a chain of lets and
the two `for` loops as `foldl`s. -/
def assess_complexity (title body : String) (labels : List String)
    (comments : List String) : ComplexityLevel :=
  let score0 : ℕ := 0
  let score1 := if 1000 < body.length then score0 + 1 else score0
  let score2 := if 10 < comments.length then score1 + 1 else score1
  let text := (title ++ " " ++ body).toLower
  let score3 := complex_keywords.foldl (fun s k => if strIn k text then s + 1 else s) score2
  let score4 := labels.foldl
    (fun s label => if complex_labels.any (fun c => strIn c label.toLower) then s + 2 else s)
    score3
  scoreToLevel score4

/-- Category adjustment dict of `_calculate_confidence_score` (lines 228-236);
`.get(category, 0)` yields 0 for `MAINTENANCE` and `PERFORMANCE`. -/
def category_adjustment : IssueCategory → ℚ
  | .BUG => 1/2
  | .DOCUMENTATION => 1
  | .FEATURE => -1/2
  | .ENHANCEMENT => -3/10
  | .QUESTION => 3/2
  | .SECURITY => -1
  | .UNKNOWN => -3/2
  | _ => 0

/-- Complexity adjustment dict of `_calculate_confidence_score` (lines 240-246). -/
def complexity_adjustment : ComplexityLevel → ℚ
  | .TRIVIAL => 2
  | .SIMPLE => 1
  | .MODERATE => 0
  | .COMPLEX => -3/2
  | .VERY_COMPLEX => -3

/-- Method `IssueScoper._calculate_confidence_score` (issue_scoper.py lines
222-264). The float sum is carried out in exact rationals; all constants are
multiples of 1/10. `title` and `labels` are parameters of the source method
but are never read by it. -/
def calculate_confidence_score (title body : String) (labels : List String)
    (comments : List String) (category : IssueCategory)
    (complexity : ComplexityLevel) : ℚ :=
  let base0 : ℚ := 7
  let base1 := base0 + category_adjustment category
  let base2 := base1 + complexity_adjustment complexity
  let base3 := if 200 < body.length then base2 + 1/2 else base2
  let base4 := if body.length < 50 then base3 - 1 else base3
  let base5 := if 5 < comments.length then base4 - 3/10 else base4
  let base6 := if strIn "steps to reproduce" body.toLower || strIn "reproduce" body.toLower
    then base5 + 4/5 else base5
  let base7 := if ["error", "exception", "stack trace"].any (fun k => strIn k body.toLower)
    then base6 + 1/2 else base6
  max 1 (min 10 (roundTenth base7))

/-- Method `IssueScoper._estimate_effort` (issue_scoper.py lines 266-288).
The source computes `int(hours * 1.5)`, `int(hours * 1.2)`, `int(hours * 1.3)`
on Python floats; on every value of `hours` reachable here (the base hours
1/3/8/20/40 and their category-adjusted images) the float truncation equals
the exact truncated product, which is what the natural-number divisions below
compute. -/
def estimate_effort (complexity : ComplexityLevel) (category : IssueCategory)
    (comment_count : ℕ) : ℕ :=
  let base : ℕ := match complexity with
    | .TRIVIAL => 1 | .SIMPLE => 3 | .MODERATE => 8 | .COMPLEX => 20 | .VERY_COMPLEX => 40
  let hours1 :=
    if category = .DOCUMENTATION then max 1 (base / 2)
    else if category = .SECURITY then base * 3 / 2
    else if category = .FEATURE then base * 6 / 5
    else base
  if 10 < comment_count then hours1 * 13 / 10 else hours1

/-- Method `IssueScoper._identify_key_factors` (issue_scoper.py lines 290-309). -/
def identify_key_factors (title body : String) (labels : List String) : List String :=
  let text := (title ++ " " ++ body).toLower
  (if ["api", "breaking", "compatibility"].any (strIn · text)
     then ["API/Compatibility concerns"] else [])
  ++ (if ["performance", "slow", "memory"].any (strIn · text)
     then ["Performance implications"] else [])
  ++ (if ["security", "vulnerability"].any (strIn · text)
     then ["Security considerations"] else [])
  ++ (if ["test", "testing", "coverage"].any (strIn · text)
     then ["Testing requirements"] else [])
  ++ (if strIn "breaking" text then ["Breaking change"] else [])
  ++ (if labels.any (fun l => ["good first issue", "help wanted"].contains l.toLower)
     then ["Community-friendly"] else [])

/-- Method `IssueScoper._identify_blockers` (issue_scoper.py lines 311-325). -/
def identify_blockers (body : String) (comments : List String) : List String :=
  let text := (body ++ " " ++ String.intercalate " " (comments.take 3)).toLower
  (if strIn "blocked" text || strIn "blocker" text
     then ["Explicitly marked as blocked"] else [])
  ++ (if strIn "depends on" text || strIn "dependency" text
     then ["Has dependencies"] else [])
  ++ (if strIn "breaking change" text
     then ["Breaking change requires careful planning"] else [])
  ++ (if strIn "need more info" text || strIn "more information" text
     then ["Insufficient information"] else [])

/-- Regex `re.findall(r'#(\d+)', text)`: each non-overlapping occurrence of
`#` followed by a maximal nonempty run of digits, captured in order. -/
def findIssueRefs : List Char → List (List Char)
  | [] => []
  | c :: t =>
    if c = '#' then
      let d := t.takeWhile Char.isDigit
      if d = [] then findIssueRefs t
      else d :: findIssueRefs (t.drop d.length)
    else findIssueRefs t
termination_by cs => cs.length
decreasing_by
  · simp
  · simp [List.length_drop]; omega
  · simp

/-- Method `IssueScoper._identify_dependencies` (issue_scoper.py lines 327-339). -/
def identify_dependencies (body : String) (comments : List String) : List String :=
  let text := body ++ " " ++ String.intercalate " " (comments.take 3)
  let issue_refs := findIssueRefs text.toList
  (if issue_refs ≠ [] then (issue_refs.take 3).map (fun r => "Issue #" ++ String.mk r) else [])
  ++ (if strIn "depends on" text.toLower then ["Has explicit dependencies"] else [])

/-- Method `IssueScoper._generate_reasoning` (issue_scoper.py lines 341-362). -/
def generate_reasoning (category : IssueCategory) (complexity : ComplexityLevel)
    (confidence_score : ℚ) (key_factors blockers : List String) : String :=
  let parts :=
    ["Categorized as " ++ category.value ++ " with " ++ complexity.lowerName ++ " complexity."]
    ++ [if 8 ≤ confidence_score then
          "High confidence due to clear description and straightforward resolution path."
        else if 6 ≤ confidence_score then
          "Moderate confidence with some uncertainty factors."
        else
          "Lower confidence due to complexity or unclear requirements."]
    ++ (if key_factors ≠ [] then
          ["Key considerations: " ++ String.intercalate ", " key_factors ++ "."] else [])
    ++ (if blockers ≠ [] then
          ["Potential blockers: " ++ String.intercalate ", " blockers ++ "."] else [])
  String.intercalate " " parts

/-- Method `IssueScoper._perform_analysis` (issue_scoper.py lines 106-147).
The source also concatenates a `full_text` of title, body and the first five
comments, but never uses it. -/
def perform_analysis (issue : IssueRec) : IssueAnalysis :=
  let category := categorize_issue issue.title issue.body issue.labels
  let complexity := assess_complexity issue.title issue.body issue.labels issue.comments
  let confidence_score :=
    calculate_confidence_score issue.title issue.body issue.labels issue.comments
      category complexity
  let effort_hours := estimate_effort complexity category issue.comments.length
  let key_factors := identify_key_factors issue.title issue.body issue.labels
  let blockers := identify_blockers issue.body issue.comments
  let dependencies := identify_dependencies issue.body issue.comments
  let reasoning := generate_reasoning category complexity confidence_score key_factors blockers
  { issue_number := issue.number
    title := issue.title
    category := category
    complexity := complexity
    confidence_score := confidence_score
    estimated_effort_hours := (effort_hours : ℤ)
    key_factors := key_factors
    blockers := blockers
    dependencies := dependencies
    reasoning := reasoning }

/-! ## JSON values and Python coercions

The library calls `json.loads`, `float`, `int`, `bool` and dict `.get` are
modelled here; `json.loads` itself is an oracle parameter of the functions
that use it. -/

/-- A decoded JSON value (the possible results of `json.loads`). -/
inductive JVal where
  | jnull
  | jbool (b : Bool)
  | jnum (q : ℚ)
  | jstr (s : String)
  | jarr (xs : List JVal)
  | jobj (fields : List (String × JVal))

/-- Dict lookup: `o.get(k)` as an `Option`. -/
def jget (o : List (String × JVal)) (k : String) : Option JVal :=
  (o.find? (fun p => p.1 == k)).map (·.2)

/-- The two exception classes relevant to the decoders: `ValueError` is
caught by the source's `except` clauses, `TypeError` is not. -/
inductive PyErr where
  | valueError
  | typeError

/-- Truncation toward zero, Python's `int()` on a float. -/
def ratTrunc (q : ℚ) : ℤ := if 0 ≤ q then ratFloor q else -(ratFloor (-q))

/-- Python `float(s)` on the digits-and-dot strings that arise in this
program (captures of `[\d.]+` and plain decimal payload strings): valid when
there is at least one digit and at most one dot. -/
def pyFloatOfDigitsDots (cs : List Char) : Option ℚ :=
  if cs.all (fun c => c.isDigit || c = '.') && cs.any Char.isDigit
      && decide (cs.count '.' ≤ 1) then
    let intPart := cs.takeWhile (· ≠ '.')
    let fracPart := (cs.drop intPart.length).drop 1
    some ((digitsVal intPart : ℚ) + (digitsVal fracPart : ℚ) / (10 ^ fracPart.length : ℕ))
  else none

/-- Python `float(v)` on a decoded JSON value: numbers and bools coerce,
strings are parsed (`ValueError` on failure), anything else is a
`TypeError`. -/
def pyFloatJ : JVal → Except PyErr ℚ
  | .jnum q => .ok q
  | .jbool b => .ok (if b then 1 else 0)
  | .jstr s => match pyFloatOfDigitsDots (pyStrip s.toList) with
    | some q => .ok q
    | none => .error .valueError
  | _ => .error .typeError

/-- Python `int(v)` on a decoded JSON value: numbers truncate toward zero,
bools coerce, digit strings are parsed (`ValueError` otherwise), anything
else is a `TypeError`. -/
def pyIntJ : JVal → Except PyErr ℤ
  | .jnum q => .ok (ratTrunc q)
  | .jbool b => .ok (if b then 1 else 0)
  | .jstr s =>
    let cs := pyStrip s.toList
    if cs ≠ [] && cs.all Char.isDigit then .ok (digitsVal cs : ℤ)
    else .error .valueError
  | _ => .error .typeError

/-- Python truthiness of a decoded JSON value. -/
def pyTruthy : JVal → Bool
  | .jnull => false
  | .jbool b => b
  | .jnum q => !decide (q = 0)
  | .jstr s => !(s == "")
  | .jarr xs => !xs.isEmpty
  | .jobj o => !o.isEmpty

/-- String view of a JSON value used for elements of the three list fields
and for `reasoning`; the source stores whatever value the payload holds
without checking, and every behaviour covered by the specification's claims
uses string entries, which this models exactly. -/
def asStrD : JVal → String
  | .jstr s => s
  | _ => ""

/-- List field extraction `analysis_data.get(k, [])` followed by the
dataclass storing the entries (string entries modelled exactly). -/
def jGetStrList (o : List (String × JVal)) (k : String) : List String :=
  match jget o k with
  | some (.jarr xs) => xs.map asStrD
  | _ => []

/-! ## Strict Devin payload decoder (issue_scoper.py lines 487-538) -/

/-- Dict `category_map` with `.get(·, IssueCategory.UNKNOWN)`
(issue_scoper.py lines 499-509, 519). -/
def category_map_get (s : String) : IssueCategory :=
  if s = "bug" then .BUG
  else if s = "feature" then .FEATURE
  else if s = "documentation" then .DOCUMENTATION
  else if s = "enhancement" then .ENHANCEMENT
  else if s = "question" then .QUESTION
  else if s = "maintenance" then .MAINTENANCE
  else if s = "security" then .SECURITY
  else if s = "performance" then .PERFORMANCE
  else if s = "unknown" then .UNKNOWN
  else .UNKNOWN

/-- Dict `complexity_map` with `.get(·, ComplexityLevel.MODERATE)`
(issue_scoper.py lines 511-517, 520). -/
def complexity_map_get (s : String) : ComplexityLevel :=
  if s = "trivial" then .TRIVIAL
  else if s = "simple" then .SIMPLE
  else if s = "moderate" then .MODERATE
  else if s = "complex" then .COMPLEX
  else if s = "very_complex" then .VERY_COMPLEX
  else .MODERATE

/-- Outcome of `IssueScoper._parse_devin_analysis`: a parsed record, the
caught-exception path (which the source answers with the heuristic
classifier), or an uncaught exception. -/
inductive ScoperParse where
  | ok (a : IssueAnalysis)
  | fallback
  | crashed
deriving DecidableEq

/-- Enum lookup `category_map.get(analysis_data.get('category', 'unknown'),
UNKNOWN)`: a present string key is looked up, a present unhashable value
(list/dict) raises `TypeError`, any other present value misses the dict and
defaults. -/
def categoryOfPayload (o : List (String × JVal)) : Except PyErr IssueCategory :=
  match jget o "category" with
  | some (.jstr s) => .ok (category_map_get s)
  | some (.jarr _) => .error .typeError
  | some (.jobj _) => .error .typeError
  | some _ => .ok .UNKNOWN
  | none => .ok (category_map_get "unknown")

/-- Enum lookup `complexity_map.get(analysis_data.get('complexity',
'moderate'), MODERATE)`, as for `categoryOfPayload`. -/
def complexityOfPayload (o : List (String × JVal)) : Except PyErr ComplexityLevel :=
  match jget o "complexity" with
  | some (.jstr s) => .ok (complexity_map_get s)
  | some (.jarr _) => .error .typeError
  | some (.jobj _) => .error .typeError
  | some _ => .ok .MODERATE
  | none => .ok (complexity_map_get "moderate")

/-- Last index of a character in a list (Python `str.rfind`). -/
def lastIdxOf (c : Char) (cs : List Char) : Option ℕ :=
  match List.findIdx? (fun x => x == c) cs.reverse with
  | some i => some (cs.length - 1 - i)
  | none => none

/-- Method `IssueScoper._parse_devin_analysis` (issue_scoper.py lines
487-538): find the first `\x7b` and the last `\x7d`, decode the enclosed text
with `json.loads` (the `loads` oracle), then map fields with defaults.
`ValueError`, `KeyError` and JSON decode errors are caught and answered by
the heuristic fallback; the `.fallback` constructor stands for that path,
and `.crashed` for exceptions the source does not catch. The field
expressions are evaluated in the source's argument order. -/
def parse_devin_analysis (loads : String → Option JVal) (analysis_text : String)
    (issue : IssueRec) : ScoperParse :=
  let cs := analysis_text.toList
  match List.findIdx? (fun x => x == '\x7b') cs, lastIdxOf '\x7d' cs with
  | none, _ => .fallback
  | some _, none => .fallback
  | some s, some e =>
    let json_str := String.mk ((cs.take (e + 1)).drop s)
    match loads json_str with
    | none => .fallback
    | some (.jobj o) =>
      match categoryOfPayload o with
      | .error _ => .crashed
      | .ok category =>
        match complexityOfPayload o with
        | .error _ => .crashed
        | .ok complexity =>
          match (match jget o "confidence_score" with
                 | none => .ok 5
                 | some v => pyFloatJ v : Except PyErr ℚ) with
          | .error .typeError => .crashed
          | .error .valueError => .fallback
          | .ok conf =>
            match (match jget o "estimated_effort_hours" with
                   | none => .ok 8
                   | some v => pyIntJ v : Except PyErr ℤ) with
            | .error .typeError => .crashed
            | .error .valueError => .fallback
            | .ok eff =>
              .ok { issue_number := issue.number
                    title := issue.title
                    category := category
                    complexity := complexity
                    confidence_score := conf
                    estimated_effort_hours := eff
                    key_factors := jGetStrList o "key_factors"
                    blockers := jGetStrList o "blockers"
                    dependencies := jGetStrList o "dependencies"
                    reasoning := match jget o "reasoning" with
                      | some (.jstr s) => s
                      | some _ => ""
                      | none => "Analysis completed via Devin API" }
    | some _ => .crashed

/-! ## Analysis orchestration (issue_scoper.py lines 64-84, 364-388) -/

/-- Result of an analysis call as seen by the caller. -/
inductive AnalyzeOutcome where
  | result (a : IssueAnalysis)
  | failed
  | crashed
deriving DecidableEq

/-- Method `IssueScoper._analyze_with_devin_api` (issue_scoper.py lines
364-388). Network effects are oracle arguments: `create_outcome` is the
return of `_create_devin_session` (`none` on transport failure, lines
436-451), `wait_outcome` the return of `_wait_for_session_completion`.
A failed creation or wait falls back to `_perform_analysis`. -/
def analyze_with_devin_api (loads : String → Option JVal) (devin_token : Option String)
    (create_outcome : Option String) (wait_outcome : Option String)
    (issue : IssueRec) : AnalyzeOutcome :=
  match devin_token with
  | none => .failed
  | some _ =>
    match create_outcome with
    | none => .result (perform_analysis issue)
    | some _ =>
      match wait_outcome with
      | none => .result (perform_analysis issue)
      | some text =>
        match parse_devin_analysis loads text issue with
        | .ok a => .result a
        | .fallback => .result (perform_analysis issue)
        | .crashed => .crashed

/-- Method `IssueScoper.analyze_issue` (issue_scoper.py lines 64-84), with
the issue fetch (`_fetch_issue_details`, `none` on transport failure or
missing issue) as an oracle argument. -/
def analyze_issue (loads : String → Option JVal) (devin_token : Option String)
    (fetch_outcome : Option IssueRec) (create_outcome : Option String)
    (wait_outcome : Option String) : AnalyzeOutcome :=
  match fetch_outcome with
  | none => .failed
  | some issue =>
    match devin_token with
    | some _ => analyze_with_devin_api loads devin_token create_outcome wait_outcome issue
    | none => .result (perform_analysis issue)

/-! ## Polling loops -/

/-- Fields of one status response read by
`IssueScoper._wait_for_session_completion` (issue_scoper.py lines 462-470):
`latest_status_contents.agent_status`, `latest_status_contents.enum`,
`latest_message_contents.type` and `.message`; an absent key is the empty
string (the source compares the results only against nonempty literals). -/
structure ScoperStatus where
  agent_status : String
  status_enum : String
  message_type : String
  message : String
deriving DecidableEq

/-- One polling round trip: a decoded status response or a transport error
(`requests.exceptions.RequestException`). -/
inductive ScoperFetch where
  | ok (s : ScoperStatus)
  | err
deriving DecidableEq

/-- The distinct ways `IssueScoper._wait_for_session_completion` can stop,
one per `return` site and print message of the source. -/
inductive ScoperPollResult where
  | success (content : String)
  | noJsonOutput
  | expired
  | transportErr
  | timeout
deriving DecidableEq

/-- Method `IssueScoper._wait_for_session_completion` (issue_scoper.py lines
453-485) over a scripted list of poll responses. Wall-clock time is modelled
by `elapsed`, advanced by the 10-second sleep of each non-terminal round;
the result carries how many status fetches were performed from the current
loop entry on (`none` when the script is shorter than the run). -/
def scoper_wait_loop (max_wait : ℕ) : ℕ → List ScoperFetch → Option (ScoperPollResult × ℕ)
  | elapsed, rs =>
    if max_wait ≤ elapsed then some (.timeout, 0)
    else
      match rs with
      | [] => none
      | .err :: _ => some (.transportErr, 1)
      | .ok st :: rest =>
        if st.agent_status = "finished" then
          if st.message_type = "devin_message" && strIn "\x7b" st.message && strIn "\x7d" st.message
          then some (.success st.message, 1)
          else some (.noJsonOutput, 1)
        else if st.status_enum = "expired" then some (.expired, 1)
        else (scoper_wait_loop max_wait (elapsed + 10) rest).map (fun p => (p.1, p.2 + 1))

/-- Return value of the scoper wait as the caller sees it: the content on
success, `None` on every other stop. -/
def scoper_wait_value (r : Option (ScoperPollResult × ℕ)) : Option String :=
  match r with
  | some (.success m, _) => some m
  | _ => none

/-- Fields of one status response read by
`IssueResolver._wait_for_session_completion` (issue_resolver.py lines
310-315): `status_enum` and `structured_output` (`.get('structured_output',
\x7b\x7d)`; an absent field is the empty object). -/
structure ResolverStatus where
  status_enum : String
  structured_output : JVal

/-- One polling round trip of the resolver: a decoded status response or a
transport error. -/
inductive ResolverFetch where
  | ok (s : ResolverStatus)
  | err

/-- The distinct ways `IssueResolver._wait_for_session_completion` can stop,
one per `return` site and print message of the source. -/
inductive ResolverPollResult where
  | success (v : JVal)
  | noStructuredOutput
  | expired
  | transportErr
  | timeout

/-- Method `IssueResolver._wait_for_session_completion` (issue_resolver.py
lines 296-334) over a scripted list of poll responses, with a 30-second
sleep per non-terminal round. The source falls through to the sleep when
the status is `blocked` with an empty `structured_output` (only `finished`
returns on an empty payload). -/
def resolver_wait_loop (max_wait : ℕ) : ℕ → List ResolverFetch → Option (ResolverPollResult × ℕ)
  | elapsed, rs =>
    if max_wait ≤ elapsed then some (.timeout, 0)
    else
      match rs with
      | [] => none
      | .err :: _ => some (.transportErr, 1)
      | .ok st :: rest =>
        if st.status_enum = "blocked" || st.status_enum = "finished" then
          if pyTruthy st.structured_output then some (.success st.structured_output, 1)
          else if st.status_enum = "finished" then some (.noStructuredOutput, 1)
          else (resolver_wait_loop max_wait (elapsed + 30) rest).map (fun p => (p.1, p.2 + 1))
        else if st.status_enum = "expired" then some (.expired, 1)
        else (resolver_wait_loop max_wait (elapsed + 30) rest).map (fun p => (p.1, p.2 + 1))

/-! ## Resolution decoding and orchestration (issue_resolver.py) -/

/-- Enum `ExecutionStatus` (issue_resolver.py lines 15-20). -/
inductive ExecutionStatus where
  | SUCCESS | PARTIAL_SUCCESS | FAILED | BLOCKED | IN_PROGRESS
deriving DecidableEq

/-- Dataclass `ResolutionResult` (issue_resolver.py lines 22-34). -/
structure ResolutionResult where
  issue_number : ℤ
  title : String
  execution_status : ExecutionStatus
  success_score : ℚ
  action_plan : List String
  changes_made : List String
  pr_created : Bool
  pr_url : Option String
  blockers_encountered : List String
  session_url : String
  summary : String
deriving DecidableEq

/-- Dict `status_map` with `.get(·, ExecutionStatus.FAILED)`
(issue_resolver.py lines 342-353). -/
def status_map_get (s : String) : ExecutionStatus :=
  if s = "success" then .SUCCESS
  else if s = "partial_success" then .PARTIAL_SUCCESS
  else if s = "failed" then .FAILED
  else if s = "blocked" then .BLOCKED
  else if s = "in_progress" then .IN_PROGRESS
  else .FAILED

/-- Outcome of `IssueResolver._parse_devin_resolution` and of the resolution
call as a whole: a record, `None`, or an uncaught exception. -/
inductive ResolveOutcome where
  | ok (r : ResolutionResult)
  | failed
  | crashed
deriving DecidableEq

/-- Enum lookup `status_map.get(resolution_data.get('execution_status',
'failed'), FAILED)`, with `TypeError` on unhashable present values. -/
def statusOfPayload (o : List (String × JVal)) : Except PyErr ExecutionStatus :=
  match jget o "execution_status" with
  | some (.jstr s) => .ok (status_map_get s)
  | some (.jarr _) => .error .typeError
  | some (.jobj _) => .error .typeError
  | some _ => .ok .FAILED
  | none => .ok (status_map_get "failed")

/-- Method `IssueResolver._parse_devin_resolution` (issue_resolver.py lines
336-374). `ValueError`/`KeyError` are caught (returning `None`, the
`.failed` constructor); a non-dict truthy payload or an unhashable enum key
raises an exception the source does not catch. -/
def parse_devin_resolution (resolution_data : JVal) (issue : IssueRec)
    (session_id : String) : ResolveOutcome :=
  match resolution_data with
  | .jobj o =>
    if o.isEmpty then .failed
    else
      match statusOfPayload o with
      | .error _ => .crashed
      | .ok execution_status =>
        match (match jget o "success_score" with
               | none => .ok 5
               | some v => pyFloatJ v : Except PyErr ℚ) with
        | .error .typeError => .crashed
        | .error .valueError => .failed
        | .ok score =>
          .ok { issue_number := issue.number
                title := issue.title
                execution_status := execution_status
                success_score := score
                action_plan := jGetStrList o "action_plan"
                changes_made := jGetStrList o "changes_made"
                pr_created := match jget o "pr_created" with
                  | some v => pyTruthy v
                  | none => false
                pr_url := match jget o "pr_url" with
                  | some (.jstr s) => some s
                  | _ => none
                blockers_encountered := jGetStrList o "blockers_encountered"
                session_url := "https://app.devin.ai/sessions/" ++ session_id
                summary := match jget o "summary" with
                  | some (.jstr s) => s
                  | some _ => ""
                  | none => "Resolution completed via Devin API" }
  | v => if pyTruthy v then .crashed else .failed

/-- Network calls observable in a resolution run, in the order the source
performs them. -/
inductive NetEvent where
  | githubFetch
  | devinCreateSession
deriving DecidableEq

/-- Method `IssueResolver.resolve_issue` together with
`IssueResolver._resolve_with_devin_api` (issue_resolver.py lines 53-74 and
174-198), with each network effect an oracle argument, returning the list
of network calls performed alongside the outcome. The source fetches the
issue (a GitHub network call, lines 66-68) before checking `devin_token`
(lines 70-74); `_resolve_with_devin_api` re-checks the token (line 176). -/
def resolve_issue (fetch_outcome : Option IssueRec) (devin_token : Option String)
    (create_outcome : Option String) (wait_outcome : Option JVal) :
    List NetEvent × ResolveOutcome :=
  match fetch_outcome with
  | none => ([.githubFetch], .failed)
  | some issue =>
    match devin_token with
    | none => ([.githubFetch], .failed)
    | some _ =>
      match create_outcome with
      | none => ([.githubFetch, .devinCreateSession], .failed)
      | some sid =>
        match wait_outcome with
        | none => ([.githubFetch, .devinCreateSession], .failed)
        | some v =>
          if pyTruthy v then
            ([.githubFetch, .devinCreateSession], parse_devin_resolution v issue sid)
          else ([.githubFetch, .devinCreateSession], .failed)

/-! ## Comment renderer `format_analysis` (issue_scoper.py lines 540-565)

The section markers in the source file are mojibake: the original emoji were
re-encoded at some point, so the file literally contains the characters
written out as escapes below (for example U+F8FF U+00FC U+00EE U+00E7 where
the decoder in issue_resolver.py expects U+1F50D). The strings here
reproduce the source file's characters exactly. -/

/-- Emoji string on line 542 used when `confidence_score >= 7`. -/
def greenMoji : String := "üü¢"

/-- Emoji string on line 542 used when `confidence_score >= 5`. -/
def yellowMoji : String := "üü°"

/-- Emoji string on line 542 used otherwise. -/
def redMoji : String := "üî¥"

/-- Header marker on line 547. -/
def analysisResultsMoji : String := "üìä Analysis Results:"

/-- Section marker on line 553. -/
def keyFactorsMoji : String := "üîç Key Factors:"

/-- Section marker on line 556 (six mojibake characters, then two spaces). -/
def blockersMoji : String := "‚ö†Ô∏è  Potential Blockers:"

/-- Section marker on line 559. -/
def depsMoji : String := "üîó Dependencies:"

/-- Section marker on line 562. -/
def reasoningMoji : String := "üí≠ Reasoning:"

/-- Bullet characters used on lines 554, 557 and 560 (mojibake of U+2022). -/
def bulletMoji : String := "‚Ä¢"

/-- Python's `str()` of the nonnegative one-decimal floats stored in
`confidence_score` (used by the `f"{analysis.confidence_score}/10"`
interpolation). -/
def floatReprTenth (q : ℚ) : String :=
  let k := ratFloor (q * 10)
  toString (k / 10) ++ "." ++ toString (k % 10)

/-- One bullet block of the template: the joined bullet lines, or the
`None identified` sentinel line for an empty list (the template prefixes
the block with three further spaces). -/
def bulletBlock (items : List String) : String :=
  if items ≠ [] then
    String.intercalate "\n" (items.map (fun x => "   " ++ bulletMoji ++ " " ++ x))
  else "   " ++ bulletMoji ++ " None identified"

/-- Function `format_analysis` (issue_scoper.py lines 540-565), reproducing
the f-string template character for character. -/
def format_analysis (a : IssueAnalysis) : String :=
  let confidence_emoji :=
    if 7 ≤ a.confidence_score then greenMoji
    else if 5 ≤ a.confidence_score then yellowMoji
    else redMoji
  "\n" ++ confidence_emoji ++ " Issue #" ++ toString a.issue_number ++ ": " ++ a.title
  ++ "\n\n" ++ analysisResultsMoji ++ "\n"
  ++ "   Category: " ++ a.category.titleValue ++ "\n"
  ++ "   Complexity: " ++ a.complexity.titleName ++ " (" ++ toString a.complexity.value ++ "/5)\n"
  ++ "   Confidence Score: " ++ floatReprTenth a.confidence_score ++ "/10\n"
  ++ "   Estimated Effort: " ++ toString a.estimated_effort_hours ++ " hours\n\n"
  ++ keyFactorsMoji ++ "\n   " ++ bulletBlock a.key_factors ++ "\n\n"
  ++ blockersMoji ++ "\n   " ++ bulletBlock a.blockers ++ "\n\n"
  ++ depsMoji ++ "\n   " ++ bulletBlock a.dependencies ++ "\n\n"
  ++ reasoningMoji ++ "\n   " ++ a.reasoning ++ "\n"

/-! ## Comment decoder `IssueResolver._parse_analysis_comment`
(issue_resolver.py lines 116-172)

Each `re.search` call is embedded as a deterministic scan. For every
pattern below, adjacent greedy pieces draw from disjoint character classes
(`\s`, `\w`, `\d`, `[\d.]` and the literals that follow them), so the
backtracking regex engine reduces to maximal-munch runs; the one exception,
`Category:\s*([^\n]+)` on text whose tail is all whitespace, is handled by
the explicit backtracking step in `catAttempt`. A pattern that fails at one
occurrence of its leading literal is retried at the next occurrence, which
is exactly `re.search`'s leftmost-match rule. -/

/-- All suffixes of `text` that follow an occurrence of `anchor`, leftmost
occurrence first. -/
def occurrencesAfter (anchor : List Char) : List Char → List (List Char)
  | [] => if anchor.isPrefixOf ([] : List Char) then [[]] else []
  | c :: t =>
    (if anchor.isPrefixOf (c :: t) then [(c :: t).drop anchor.length] else [])
      ++ occurrencesAfter anchor t

/-- The suffix of `text` after the first occurrence of `anchor`. -/
def afterFirst (anchor text : List Char) : Option (List Char) :=
  (occurrencesAfter anchor text).head?

/-- Matching of `\s*([^\n]+)` at a fixed position, as in
`Category:\s*([^\n]+)`: greedy whitespace, then a nonempty greedy run of
non-newline characters, backtracking into the whitespace run when nothing
follows it. -/
def catAttempt (rest : List Char) : Option (List Char) :=
  let j := (rest.takeWhile isPyWs).length
  if j < rest.length then some ((rest.drop j).takeWhile (· ≠ '\n'))
  else
    let tailNl := (rest.reverse.takeWhile (· = '\n')).length
    if tailNl = rest.length then none
    else some ((rest.drop (rest.length - 1 - tailNl)).takeWhile (· ≠ '\n'))

/-- Regex `re.search(r'Category:\s*([^\n]+)', body)`, group 1. -/
def searchCategory (body : List Char) : Option (List Char) :=
  (occurrencesAfter "Category:".toList body).findSome? catAttempt

/-- Matching of `\s*(\w+)\s*\((\d+)/5\)` at a fixed position. -/
def complexityAttempt (rest : List Char) : Option (List Char × List Char) :=
  let r1 := rest.drop (rest.takeWhile isPyWs).length
  let w := r1.takeWhile isWordChar
  if w.isEmpty then none
  else
    let r2 := r1.drop w.length
    let r3 := r2.drop (r2.takeWhile isPyWs).length
    match r3 with
    | '(' :: r4 =>
      let d := r4.takeWhile Char.isDigit
      if d.isEmpty then none
      else if "/5)".toList.isPrefixOf (r4.drop d.length) then some (w, d) else none
    | _ => none

/-- Regex `re.search(r'Complexity:\s*(\w+)\s*\((\d+)/5\)', body)`,
groups 1 and 2. -/
def searchComplexity (body : List Char) : Option (List Char × List Char) :=
  (occurrencesAfter "Complexity:".toList body).findSome? complexityAttempt

/-- Matching of `\s*([\d.]+)/10` at a fixed position. -/
def confidenceAttempt (rest : List Char) : Option (List Char) :=
  let r1 := rest.drop (rest.takeWhile isPyWs).length
  let d := r1.takeWhile (fun c => c.isDigit || c = '.')
  if d.isEmpty then none
  else if "/10".toList.isPrefixOf (r1.drop d.length) then some d else none

/-- Regex `re.search(r'Confidence Score:\s*([\d.]+)/10', body)`, group 1. -/
def searchConfidence (body : List Char) : Option (List Char) :=
  (occurrencesAfter "Confidence Score:".toList body).findSome? confidenceAttempt

/-- Matching of `\s*(\d+)\s*hours?` at a fixed position. -/
def effortAttempt (rest : List Char) : Option (List Char) :=
  let r1 := rest.drop (rest.takeWhile isPyWs).length
  let d := r1.takeWhile Char.isDigit
  if d.isEmpty then none
  else
    let r2 := r1.drop d.length
    let r3 := r2.drop (r2.takeWhile isPyWs).length
    if "hour".toList.isPrefixOf r3 then some d else none

/-- Regex `re.search(r'Estimated Effort:\s*(\d+)\s*hours?', body)`, group 1. -/
def searchEffort (body : List Char) : Option (List Char) :=
  (occurrencesAfter "Estimated Effort:".toList body).findSome? effortAttempt

/-- Lazy capture `(.*?)(?=stop1|stop2|...|$)` under `re.DOTALL`: take
characters up to the earliest position where a stop literal starts, the end
of the text, or the position just before a final newline (Python's `$`). -/
def lazyTake (stops : List (List Char)) : List Char → List Char
  | [] => []
  | c :: t =>
    if stops.any (fun s => s.isPrefixOf (c :: t)) then []
    else if c == '\n' && t.isEmpty then []
    else c :: lazyTake stops t

/-- Regex `re.search(r'🔍 Key Factors:(.*?)(?=⚠️|🔗|💭|$)', body, re.DOTALL)`,
group 1. The first stop literal is U+26A0 U+FE0F. -/
def factorsSection (body : List Char) : Option (List Char) :=
  (afterFirst "🔍 Key Factors:".toList body).map
    (lazyTake ["⚠️".toList, "🔗".toList, "💭".toList])

/-- Regex `re.search(r'⚠️.*?Potential Blockers:(.*?)(?=🔗|💭|$)', body,
re.DOTALL)`, group 1: the first warning sign, then the first
`Potential Blockers:` after it. -/
def blockersSection (body : List Char) : Option (List Char) :=
  match afterFirst "⚠️".toList body with
  | none => none
  | some r =>
    (afterFirst "Potential Blockers:".toList r).map
      (lazyTake ["🔗".toList, "💭".toList])

/-- Regex `re.search(r'🔗 Dependencies:(.*?)(?=💭|$)', body, re.DOTALL)`,
group 1. -/
def depsSection (body : List Char) : Option (List Char) :=
  (afterFirst "🔗 Dependencies:".toList body).map (lazyTake ["💭".toList])

/-- Regex `re.search(r'💭 Reasoning:\s*(.*?)(?=---|$)', body, re.DOTALL)`,
group 1 (greedy whitespace first, then the lazy capture). -/
def reasoningSection (body : List Char) : Option (List Char) :=
  (afterFirst "💭 Reasoning:".toList body).map
    (fun r => lazyTake ["---".toList] (r.drop (r.takeWhile isPyWs).length))

/-- The bullet-line list comprehension applied to a section match (lines
130-131, 137-138, 144-145): keep lines that are nonblank, contain U+2022 and
do not contain `None identified`; strip each kept line, remove leading
bullet-or-space characters, strip again. -/
def bulletItems (sectionText : Option (List Char)) : List String :=
  match sectionText with
  | none => []
  | some text =>
    ((text.splitOn '\n').filter (fun line =>
        !(pyStrip line).isEmpty && containsSub ['•'] line
          && !containsSub "None identified".toList line)).map
      (fun line => String.mk (pyStrip (pyLstripSet ['•', ' '] (pyStrip line))))

/-- The dictionary built by `_parse_analysis_comment` (lines 156-168). -/
structure AnalysisData where
  category : String
  complexity_level : String
  complexity_value : ℤ
  confidence_score : ℚ
  estimated_effort_hours : ℤ
  key_factors : List String
  blockers : List String
  dependencies : List String
  reasoning : String
deriving DecidableEq

/-- Method `IssueResolver._parse_analysis_comment` (issue_resolver.py lines
116-172). The only statement in the `try` block that can raise is
`float(confidence_match.group(1))` on a capture with more than one dot (or
no digit); the `except` clause then returns `None`. -/
def parse_analysis_comment (comment_body : String) : Option AnalysisData :=
  let body := comment_body.toList
  let category_match := searchCategory body
  let complexity_match := searchComplexity body
  let confidence_match := searchConfidence body
  let effort_match := searchEffort body
  let key_factors := bulletItems (factorsSection body)
  let blockers := bulletItems (blockersSection body)
  let dependencies := bulletItems (depsSection body)
  let reasoning := match reasoningSection body with
    | some r => String.mk (pyStrip r)
    | none => ""
  let comp : String × ℤ := match complexity_match with
    | some (w, d) => (String.mk ((pyStrip w).map Char.toLower), (digitsVal d : ℤ))
    | none => ("moderate", 3)
  match (match confidence_match with
         | some run => pyFloatOfDigitsDots run
         | none => some 5 : Option ℚ) with
  | none => none
  | some conf =>
    some { category := match category_match with
             | some g => String.mk ((pyStrip g).map Char.toLower)
             | none => "unknown"
           complexity_level := comp.1
           complexity_value := comp.2
           confidence_score := conf
           estimated_effort_hours := match effort_match with
             | some d => (digitsVal d : ℤ)
             | none => 8
           key_factors := key_factors
           blockers := blockers
           dependencies := dependencies
           reasoning := reasoning }

/-- The marker searched for by `_fetch_devin_analysis_from_comments`
(issue_resolver.py line 111). -/
def analysisMarker : String := "🤖 Devin Analysis Results"

/-- The `for comment in reversed(comments)` loop of
`_fetch_devin_analysis_from_comments` (lines 109-114), on an
already-reversed list. -/
def commentScan : List String → Option AnalysisData
  | [] => none
  | b :: rest =>
    if strIn analysisMarker b then parse_analysis_comment b else commentScan rest

/-- Method `IssueResolver._fetch_devin_analysis_from_comments`
(issue_resolver.py lines 96-114), given the fetched comment bodies in their
API order (oldest first). -/
def fetch_devin_analysis_from_comments (comments : List String) : Option AnalysisData :=
  commentScan comments.reverse

/-! ## Specification-side definitions and concrete inputs for the claims -/

/-- The complexity score exactly as the specification words it: +1 for a
body longer than 1000 characters, +1 for more than 10 comments, +1 per
distinct complexity keyword present in the lower-cased title+body, +2 per
label containing a major-change keyword. -/
def claim_complexity_score (title body : String) (labels : List String)
    (comments : List String) : ℕ :=
  (if 1000 < body.length then 1 else 0)
    + (if 10 < comments.length then 1 else 0)
    + complex_keywords.countP (fun k => strIn k ((title ++ " " ++ body).toLower))
    + 2 * labels.countP (fun l => complex_labels.any (fun c => strIn c l.toLower))

/-- Every keyword of the category text scan of `_categorize_issue`. -/
def allCategoryKeywords : List String :=
  ["bug", "error", "crash", "broken", "fail", "issue",
   "feature", "add", "implement", "new",
   "improve", "enhance", "better", "optimize",
   "document", "readme", "docs", "guide",
   "question", "how", "why", "what", "?",
   "security", "vulnerability", "exploit",
   "performance", "slow", "speed"]

/-- A concrete analysis record with one key factor, used to evaluate the
render/decode round trip. -/
def c1Example : IssueAnalysis :=
  { issue_number := 42, title := "Fix crash", category := .BUG, complexity := .TRIVIAL,
    confidence_score := 17/2, estimated_effort_hours := 1,
    key_factors := ["Breaking change"], blockers := [], dependencies := [],
    reasoning := "Categorized as bug with trivial complexity." }

/-- A small concrete issue used by several counterexamples. -/
def issueEx : IssueRec := { number := 1, title := "t", body := "", labels := [], comments := [] }

/-- Behaviour of `json.loads` on the one payload used by the `C2`
counterexample. -/
def c2Loads : String → Option JVal := fun s =>
  if s = "\x7b\"confidence_score\": 42\x7d" then some (.jobj [("confidence_score", .jnum 42)])
  else none

/-! ## Helper lemmas -/

/-- Folding `+1`-if-predicate over a list counts the matching elements. -/
theorem foldl_add_ite_one {α : Type} (p : α → Bool) (l : List α) (init : ℕ) :
    l.foldl (fun s k => if p k then s + 1 else s) init = init + l.countP p := by
  induction l generalizing init with
  | nil => rfl
  | cons a t ih =>
    by_cases h : p a <;> simp [List.foldl, h, List.countP_cons, ih] <;> omega

/-- Folding `+2`-if-predicate over a list counts the matching elements
twice. -/
theorem foldl_add_ite_two {α : Type} (p : α → Bool) (l : List α) (init : ℕ) :
    l.foldl (fun s k => if p k then s + 2 else s) init = init + 2 * l.countP p := by
  induction l generalizing init with
  | nil => rfl
  | cons a t ih =>
    by_cases h : p a <;> simp [List.foldl, h, List.countP_cons, ih] <;> omega

/-- The clamp `max 1 (min 10 ·)` lands in `[1, 10]`. -/
theorem clamp_bounds (x : ℚ) : 1 ≤ max 1 (min 10 x) ∧ max 1 (min 10 x) ≤ 10 :=
  ⟨le_max_left 1 _, max_le (by norm_num) (min_le_left 10 x)⟩

/-- The clamp of a rounded-to-tenths value is an integer number of tenths. -/
theorem clamp_tenth_form (x : ℚ) :
    ∃ k : ℤ, max 1 (min 10 (roundTenth x)) = (k : ℚ) / 10 := by
  rcases le_total (roundTenth x) 10 with h | h
  · rw [min_eq_right h]
    rcases le_total (roundTenth x) 1 with h1 | h1
    · exact ⟨10, by rw [max_eq_left h1]; norm_num⟩
    · exact ⟨roundHalfEven (x * 10), by rw [max_eq_right h1]; rfl⟩
  · exact ⟨100, by rw [min_eq_left h, max_eq_right (by norm_num : (1:ℚ) ≤ 10)]; norm_num⟩

/-- The confidence score is the clamp of a rounded value (shared by the
range facts of several claims). -/
theorem calc_conf_clamped (title body : String) (labels : List String)
    (comments : List String) (category : IssueCategory) (complexity : ComplexityLevel) :
    1 ≤ calculate_confidence_score title body labels comments category complexity
    ∧ calculate_confidence_score title body labels comments category complexity ≤ 10 := by
  unfold calculate_confidence_score
  exact clamp_bounds _

/-- C7: the heuristic complexity score is +1 for body length over 1000, +1
for more than 10 comments, +1 per distinct complexity keyword in the
lower-cased title+body, +2 per label containing a major-change keyword, and
the total maps by the fixed thresholds, with the boundary totals 1, 2, 4, 6
and 7 landing exactly on trivial, simple, moderate, complex and
very_complex. -/
theorem complexity_score_formula_and_thresholds :
    (∀ title body labels comments,
      assess_complexity title body labels comments
        = scoreToLevel (claim_complexity_score title body labels comments))
    ∧ scoreToLevel 1 = .TRIVIAL ∧ scoreToLevel 2 = .SIMPLE ∧ scoreToLevel 4 = .MODERATE
    ∧ scoreToLevel 6 = .COMPLEX ∧ scoreToLevel 7 = .VERY_COMPLEX := by
  refine ⟨fun title body labels comments => ?_, rfl, rfl, rfl, rfl, rfl⟩
  simp only [assess_complexity, claim_complexity_score]
  rw [foldl_add_ite_one, foldl_add_ite_two]
  congr 1
  split_ifs <;> omega

/-- C8: for every issue input, the heuristic confidence score lies in
`[1, 10]` and is an integer number of tenths (a value rounded to one
decimal place). -/
theorem confidence_clamped_one_decimal :
    ∀ title body labels comments category complexity,
      1 ≤ calculate_confidence_score title body labels comments category complexity
      ∧ calculate_confidence_score title body labels comments category complexity ≤ 10
      ∧ ∃ k : ℤ, calculate_confidence_score title body labels comments category complexity
          = (k : ℚ) / 10 := by
  intro title body labels comments category complexity
  refine ⟨(calc_conf_clamped title body labels comments category complexity).1,
          (calc_conf_clamped title body labels comments category complexity).2, ?_⟩
  unfold calculate_confidence_score
  exact clamp_tenth_form _

/-- C9: for an issue with empty body, labels `["bug"]`, no comments, and a
title containing no category or complexity keyword, the classifier returns
category `bug` (the label match short-circuits the text scan), complexity
`trivial`, and confidence exactly 8.5 = 7.0 + 0.5 + 2.0 - 1.0. -/
theorem scenario_bug_label_empty_body (title : String)
    (hcat : ∀ w ∈ allCategoryKeywords, strIn w ((title ++ " " ++ "").toLower) = false)
    (hcpx : ∀ w ∈ complex_keywords, strIn w ((title ++ " " ++ "").toLower) = false) :
    categorize_issue title "" ["bug"] = .BUG
    ∧ assess_complexity title "" ["bug"] [] = .TRIVIAL
    ∧ calculate_confidence_score title "" ["bug"] [] .BUG .TRIVIAL = 17/2 := by
  refine ⟨?_, ?_, ?_⟩
  · have h : labelScan ["bug"] = some .BUG := by with_unfolding_all decide
    simp [categorize_issue, h]
  · have hc : complex_keywords.countP (fun k => strIn k ((title ++ " " ++ "").toLower)) = 0 := by
      rw [List.countP_eq_zero]
      intro k hk
      simp only [hcpx k hk]
      decide
    simp only [assess_complexity]
    rw [foldl_add_ite_one, foldl_add_ite_two]
    rw [hc]
    with_unfolding_all decide
  · with_unfolding_all rfl

theorem scenario_bug_label_witness :
    (∀ w ∈ allCategoryKeywords, strIn w (("zzz" ++ " " ++ "").toLower) = false)
    ∧ (categorize_issue "zzz" "" ["bug"] = .BUG
       ∧ assess_complexity "zzz" "" ["bug"] [] = .TRIVIAL
       ∧ calculate_confidence_score "zzz" "" ["bug"] [] .BUG .TRIVIAL = 17/2) :=
  ⟨by with_unfolding_all decide,
   scenario_bug_label_empty_body "zzz" (by with_unfolding_all decide) (by with_unfolding_all decide)⟩

/-- C6: whenever the elapsed wall-clock time reaches the caller-supplied
maximum before any terminal status, both polling loops stop with the
distinct timeout result and perform zero further status fetches after the
timeout check. -/
theorem timeout_stops_polling :
    ∀ max_wait elapsed (rs : List ResolverFetch) (rs' : List ScoperFetch),
      max_wait ≤ elapsed →
      resolver_wait_loop max_wait elapsed rs = some (.timeout, 0)
      ∧ scoper_wait_loop max_wait elapsed rs' = some (.timeout, 0)
      ∧ ResolverPollResult.timeout ≠ .transportErr
      ∧ ResolverPollResult.timeout ≠ .noStructuredOutput
      ∧ ScoperPollResult.timeout ≠ .transportErr
      ∧ ScoperPollResult.timeout ≠ .noJsonOutput := by
  intro max_wait elapsed rs rs' h
  refine ⟨?_, ?_, ?_, ?_, ?_, ?_⟩
  · rw [resolver_wait_loop.eq_def]
    simp [h]
  · rw [scoper_wait_loop.eq_def]
    simp [h]
  · exact fun hc => ResolverPollResult.noConfusion hc
  · exact fun hc => ResolverPollResult.noConfusion hc
  · exact fun hc => ScoperPollResult.noConfusion hc
  · exact fun hc => ScoperPollResult.noConfusion hc

theorem timeout_stops_polling_witness :
    300 ≤ 300
    ∧ (resolver_wait_loop 300 300 [] = some (.timeout, 0)
       ∧ scoper_wait_loop 300 300 [] = some (.timeout, 0)
       ∧ ResolverPollResult.timeout ≠ .transportErr
       ∧ ResolverPollResult.timeout ≠ .noStructuredOutput
       ∧ ScoperPollResult.timeout ≠ .transportErr
       ∧ ScoperPollResult.timeout ≠ .noJsonOutput) :=
  ⟨le_refl 300, timeout_stops_polling 300 300 [] [] (le_refl 300)⟩

/-- C3 counterexample: after observing status `blocked` with an empty
payload, the resolver loop performs a second status fetch and even returns
that later fetch's payload as success. -/
theorem blocked_empty_keeps_polling :
    resolver_wait_loop 1800 0
        [.ok ⟨"blocked", .jobj []⟩, .ok ⟨"finished", .jobj [("summary", .jstr "s")]⟩]
      = some (.success (.jobj [("summary", .jstr "s")]), 2) := by
  with_unfolding_all rfl

/-- C3 amended: when a status check returns `finished` with an absent or
empty structured payload the resolver loop stops at once with the
`no structured output` failure (one fetch, the current one); but for
`blocked` with an empty payload the loop does not stop - it sleeps and
polls again; the analysis loop's only terminal success status is
`finished`, where a missing JSON message likewise stops with failure. -/
theorem terminal_empty_payload_behaviour :
    (∀ max_wait elapsed (rest : List ResolverFetch), elapsed < max_wait →
       resolver_wait_loop max_wait elapsed (.ok ⟨"finished", .jobj []⟩ :: rest)
         = some (.noStructuredOutput, 1))
    ∧ (∀ max_wait elapsed (rest : List ResolverFetch), elapsed < max_wait →
       resolver_wait_loop max_wait elapsed (.ok ⟨"blocked", .jobj []⟩ :: rest)
         = (resolver_wait_loop max_wait (elapsed + 30) rest).map (fun p => (p.1, p.2 + 1)))
    ∧ (∀ max_wait elapsed (rest : List ScoperFetch) st, elapsed < max_wait →
       st.agent_status = "finished" →
       (st.message_type = "devin_message" && strIn "\x7b" st.message
          && strIn "\x7d" st.message) = false →
       scoper_wait_loop max_wait elapsed (.ok st :: rest) = some (.noJsonOutput, 1)) := by
  refine ⟨?_, ?_, ?_⟩
  · intro max_wait elapsed rest h
    rw [resolver_wait_loop.eq_def]
    simp [Nat.not_le.mpr h, pyTruthy]
  · intro max_wait elapsed rest h
    rw [resolver_wait_loop.eq_def]
    simp [Nat.not_le.mpr h, pyTruthy]
  · intro max_wait elapsed rest st h hfin hmsg
    rw [scoper_wait_loop.eq_def]
    simp [Nat.not_le.mpr h, hfin, hmsg]

theorem terminal_empty_payload_witness :
    0 < 1800
    ∧ resolver_wait_loop 1800 0 [.ok ⟨"finished", .jobj []⟩] = some (.noStructuredOutput, 1)
    ∧ resolver_wait_loop 1800 0 [.ok ⟨"blocked", .jobj []⟩]
        = (resolver_wait_loop 1800 30 []).map (fun p => (p.1, p.2 + 1))
    ∧ scoper_wait_loop 300 0 [.ok ⟨"finished", "", "", ""⟩] = some (.noJsonOutput, 1) :=
  ⟨by decide,
   (terminal_empty_payload_behaviour.1 1800 0 [] (by decide)),
   (terminal_empty_payload_behaviour.2.1 1800 0 [] (by decide)),
   (terminal_empty_payload_behaviour.2.2 1800 0 [] ⟨"finished", "", "", ""⟩ (by decide) rfl rfl)⟩

/-- C4 counterexample: with no remote-agent credential, the resolution call
still performs the GitHub issue fetch before reporting failure. -/
theorem resolve_fetches_before_credential_check :
    resolve_issue (some issueEx) none none none = ([.githubFetch], .failed)
    ∧ NetEvent.githubFetch ∈ (resolve_issue (some issueEx) none none none).1 := by
  constructor
  · rfl
  · rw [show resolve_issue (some issueEx) none none none = ([.githubFetch], .failed) from rfl]
    exact List.mem_singleton.mpr rfl

/-- C4 amended: with the remote-agent credential absent the resolution call
reports failure and never creates a session, but the GitHub issue fetch is
performed before the credential check rather than after it. -/
theorem missing_credential_no_session :
    ∀ (fetch_outcome : Option IssueRec) (create_outcome : Option String)
      (wait_outcome : Option JVal),
      resolve_issue fetch_outcome none create_outcome wait_outcome = ([.githubFetch], .failed)
      ∧ NetEvent.devinCreateSession ∉
          (resolve_issue fetch_outcome none create_outcome wait_outcome).1 := by
  intro f c w
  cases f with
  | none => exact ⟨rfl, by simp [resolve_issue]⟩
  | some issue => exact ⟨rfl, by simp [resolve_issue]⟩

/-- C5 counterexample: a transport failure while creating the analysis
session is answered with a successful heuristic analysis, not a failure. -/
theorem analysis_create_failure_returns_success :
    analyze_with_devin_api (fun _ => none) (some "token") none none issueEx
      = .result (perform_analysis issueEx)
    ∧ analyze_with_devin_api (fun _ => none) (some "token") none none issueEx ≠ .failed := by
  constructor
  · rfl
  · rw [show analyze_with_devin_api (fun _ => none) (some "token") none none issueEx
        = .result (perform_analysis issueEx) from rfl]
    exact fun hc => AnalyzeOutcome.noConfusion hc

/-- C5 amended: transport failures fetching the issue and every failure in
the resolution path are surfaced to the caller as failure, and the polling
loops stop immediately on a transport error with a distinct result; but in
the analysis path a transport failure creating or polling the session falls
back to the heuristic classifier and returns its successful analysis
instead of a failure. -/
theorem transport_failure_surfacing :
    (∀ (loads : String → Option JVal) token (wait : Option String) issue,
       analyze_with_devin_api loads (some token) none wait issue
         = .result (perform_analysis issue))
    ∧ (∀ (loads : String → Option JVal) token sid issue,
       analyze_with_devin_api loads (some token) (some sid) none issue
         = .result (perform_analysis issue))
    ∧ (∀ (token : Option String) (create : Option String) (wait : Option JVal),
       resolve_issue none token create wait = ([.githubFetch], .failed))
    ∧ (∀ issue token (wait : Option JVal),
       resolve_issue (some issue) (some token) none wait
         = ([.githubFetch, .devinCreateSession], .failed))
    ∧ (∀ issue token sid,
       resolve_issue (some issue) (some token) (some sid) none
         = ([.githubFetch, .devinCreateSession], .failed))
    ∧ (∀ max_wait elapsed (rest : List ResolverFetch), elapsed < max_wait →
       resolver_wait_loop max_wait elapsed (.err :: rest) = some (.transportErr, 1))
    ∧ (∀ max_wait elapsed (rest : List ScoperFetch), elapsed < max_wait →
       scoper_wait_loop max_wait elapsed (.err :: rest) = some (.transportErr, 1)) := by
  refine ⟨fun loads token wait issue => rfl, fun loads token sid issue => rfl,
          fun token create wait => ?_, fun issue token wait => rfl,
          fun issue token sid => rfl, ?_, ?_⟩
  · cases token <;> rfl
  · intro max_wait elapsed rest h
    rw [resolver_wait_loop.eq_def]
    simp [Nat.not_le.mpr h]
  · intro max_wait elapsed rest h
    rw [scoper_wait_loop.eq_def]
    simp [Nat.not_le.mpr h]

theorem transport_failure_surfacing_witness :
    analyze_with_devin_api (fun _ => none) (some "t") none none issueEx
      = .result (perform_analysis issueEx)
    ∧ resolve_issue none (some "t") none none = ([.githubFetch], .failed)
    ∧ (0 < 1800 ∧ resolver_wait_loop 1800 0 [.err] = some (.transportErr, 1))
    ∧ (0 < 300 ∧ scoper_wait_loop 300 0 [.err] = some (.transportErr, 1)) :=
  ⟨transport_failure_surfacing.1 (fun _ => none) "t" none issueEx,
   transport_failure_surfacing.2.2.1 (some "t") none none,
   ⟨by decide, transport_failure_surfacing.2.2.2.2.2.1 1800 0 [] (by decide)⟩,
   ⟨by decide, transport_failure_surfacing.2.2.2.2.2.2 300 0 [] (by decide)⟩⟩

/-- C2 counterexample: the strict Devin payload decoder stores an
out-of-range confidence score of 42 without clamping. -/
theorem devin_decoder_no_clamp :
    parse_devin_analysis c2Loads "\x7b\"confidence_score\": 42\x7d" issueEx
      = .ok { issue_number := 1, title := "t", category := .UNKNOWN, complexity := .MODERATE,
              confidence_score := 42, estimated_effort_hours := 8,
              key_factors := [], blockers := [], dependencies := [],
              reasoning := "Analysis completed via Devin API" }
    ∧ ¬((42 : ℚ) ≤ 10) := by
  constructor
  · with_unfolding_all decide
  · norm_num

/-- C2 amended: the heuristic classifier's confidence score is always
clamped to `[1, 10]`, and the enum decoders are total with the fixed
defaults `unknown`/`moderate` on unrecognized input (never null,
never out of enum); but the Devin-payload decoder does not clamp
`confidence_score`, so out-of-range numbers pass through unchanged. -/
theorem analysis_invariants :
    (∀ title body labels comments category complexity,
       1 ≤ calculate_confidence_score title body labels comments category complexity
       ∧ calculate_confidence_score title body labels comments category complexity ≤ 10)
    ∧ (∀ s : String,
       s ∉ ["bug", "feature", "documentation", "enhancement", "question",
            "maintenance", "security", "performance", "unknown"] →
       category_map_get s = .UNKNOWN)
    ∧ (∀ s : String,
       s ∉ ["trivial", "simple", "moderate", "complex", "very_complex"] →
       complexity_map_get s = .MODERATE) := by
  refine ⟨calc_conf_clamped, ?_, ?_⟩
  · intro s h
    simp only [List.mem_cons, List.not_mem_nil, or_false, not_or] at h
    obtain ⟨h1, h2, h3, h4, h5, h6, h7, h8, h9⟩ := h
    simp [category_map_get, h1, h2, h3, h4, h5, h6, h7, h8, h9]
  · intro s h
    simp only [List.mem_cons, List.not_mem_nil, or_false, not_or] at h
    obtain ⟨h1, h2, h3, h4, h5⟩ := h
    simp [complexity_map_get, h1, h2, h3, h4, h5]

theorem analysis_invariants_witness :
    (1 ≤ calculate_confidence_score "a" "b" [] [] .BUG .TRIVIAL
     ∧ calculate_confidence_score "a" "b" [] [] .BUG .TRIVIAL ≤ 10)
    ∧ ("banana" ∉ ["bug", "feature", "documentation", "enhancement", "question",
                   "maintenance", "security", "performance", "unknown"]
       ∧ category_map_get "banana" = .UNKNOWN)
    ∧ ("banana" ∉ ["trivial", "simple", "moderate", "complex", "very_complex"]
       ∧ complexity_map_get "banana" = .MODERATE) :=
  ⟨analysis_invariants.1 "a" "b" [] [] .BUG .TRIVIAL,
   ⟨by decide, analysis_invariants.2.1 "banana" (by decide)⟩,
   ⟨by decide, analysis_invariants.2.2 "banana" (by decide)⟩⟩

/-- C10 counterexample: a comment containing the marker together with a
confidence anchor whose capture `1.2.3` fails `float()`, so the fetch
returns no record at all. -/
theorem marker_comment_yields_no_record :
    fetch_devin_analysis_from_comments
        ["🤖 Devin Analysis Results\nConfidence Score: 1.2.3/10"] = none := by
  with_unfolding_all decide

/-- C10 amended: recovery scans the comments newest-first and decodes the
first comment containing the marker; whenever the decoder returns a record
at all, every missing anchor is replaced by its fixed default (category
`unknown`, complexity `moderate`/3, confidence 5.0, effort 8, empty lists,
empty reasoning); but when the confidence anchor's capture fails `float()`
the decoder returns no record even though the marker is present. -/
theorem comment_recovery_behaviour :
    (∀ comments : List String,
       fetch_devin_analysis_from_comments comments
         = (comments.reverse.find? (fun b => strIn analysisMarker b)).bind
             parse_analysis_comment)
    ∧ (∀ (body : String) (d : AnalysisData), parse_analysis_comment body = some d →
       (searchCategory body.toList = none → d.category = "unknown")
       ∧ (searchComplexity body.toList = none →
            d.complexity_level = "moderate" ∧ d.complexity_value = 3)
       ∧ (searchConfidence body.toList = none → d.confidence_score = 5)
       ∧ (searchEffort body.toList = none → d.estimated_effort_hours = 8)
       ∧ (factorsSection body.toList = none → d.key_factors = [])
       ∧ (blockersSection body.toList = none → d.blockers = [])
       ∧ (depsSection body.toList = none → d.dependencies = [])
       ∧ (reasoningSection body.toList = none → d.reasoning = "")) := by
  constructor
  · intro comments
    show commentScan comments.reverse = _
    induction comments.reverse with
    | nil => rfl
    | cons b t ih =>
      by_cases hb : strIn analysisMarker b = true
      · rw [commentScan, if_pos hb, List.find?_cons_of_pos _ hb]
        rfl
      · rw [commentScan, if_neg hb, List.find?_cons_of_neg _ (by simpa using hb), ih]
  · intro body d h
    simp only [parse_analysis_comment] at h
    split at h
    · exact absurd h (by simp)
    · cases h
      refine ⟨fun ha => ?_, fun ha => ?_, fun ha => ?_, fun ha => ?_,
              fun ha => ?_, fun ha => ?_, fun ha => ?_, fun ha => ?_⟩
      · have ha' : searchCategory body.data = none := ha
        simp [ha']
      · have ha' : searchComplexity body.data = none := ha
        simp [ha']
      · rename_i conf heq
        rw [ha] at heq
        exact (Option.some.inj heq).symm
      · have ha' : searchEffort body.data = none := ha
        simp [ha']
      · have ha' : factorsSection body.data = none := ha
        simp [ha', bulletItems]
      · have ha' : blockersSection body.data = none := ha
        simp [ha', bulletItems]
      · have ha' : depsSection body.data = none := ha
        simp [ha', bulletItems]
      · have ha' : reasoningSection body.data = none := ha
        simp [ha']

theorem comment_recovery_witness :
    fetch_devin_analysis_from_comments ["x"]
      = ((["x"].reverse.find? (fun b => strIn analysisMarker b)).bind parse_analysis_comment)
    ∧ (parse_analysis_comment "🤖 Devin Analysis Results"
        = some ⟨"unknown", "moderate", 3, 5, 8, [], [], [], ""⟩
       ∧ (⟨"unknown", "moderate", 3, 5, 8, [], [], [], ""⟩ : AnalysisData).category
           = "unknown") :=
  ⟨comment_recovery_behaviour.1 ["x"],
   by with_unfolding_all decide,
   (comment_recovery_behaviour.2 "🤖 Devin Analysis Results"
      ⟨"unknown", "moderate", 3, 5, 8, [], [], [], ""⟩
      (by with_unfolding_all decide)).1 (by with_unfolding_all decide)⟩

/-- C1: evaluating the renderer/decoder round trip on `c1Example` shows the
scalar fields survive but the nonempty `key_factors` list decodes to `[]`
(and `reasoning` to the empty string), because the renderer's section
markers are the mojibake characters while the decoder searches for the
emoji ones. -/
theorem roundtrip_drops_list_fields :
    parse_analysis_comment (format_analysis c1Example)
      = some { category := "bug", complexity_level := "trivial", complexity_value := 1,
               confidence_score := 17/2, estimated_effort_hours := 1,
               key_factors := [], blockers := [], dependencies := [], reasoning := "" }
    ∧ c1Example.key_factors = ["Breaking change"] := by
  constructor
  · with_unfolding_all decide
  · rfl
